import Mathlib

/-!
Shallow embedding of the Triple-Pendulum-RL repository (files reward.py,
tp_env.py, train.py) and proofs about its reward computation, environment
reset and boundary clamping, and the non-finite-state check of the
training loop.

States are modelled as lists of real numbers; fallible operations
(Python slice-unpacking that can raise ValueError) return Option.
-/

set_option linter.unusedVariables false

namespace TriplePendulum

/-! ## RewardManager (src/reward.py)

Weights fixed in RewardManager.__init__. -/

namespace RewardManager

noncomputable def cart_position_weight : ℝ := 1

noncomputable def termination_penalty : ℝ := 10.0

noncomputable def alignement_weight : ℝ := 0.1

noncomputable def upright_weight : ℝ := 1.0

noncomputable def stability_weight : ℝ := 0.02

noncomputable def length : ℝ := 0.5

/-- Python tuple unpacking of a slice, as in x, y, z = state[a:a+3].
It succeeds exactly when the slice has three elements, i.e. when
a + 3 is at most the length of the list; otherwise the Python code
raises ValueError, modelled as none. -/
def slice3 (s : List ℝ) (a : ℕ) : Option (ℝ × ℝ × ℝ) :=
  match s.drop a with
  | x :: y :: z :: _ => some (x, y, z)
  | _ => none

/-- RewardManager.calculate_reward, lines 13-66 of reward.py: extracts the
twelve state components, computes the link-tip positions, the four reward
components and the total reward; subtracts termination_penalty when
terminated.  Returns the tuple
(reward, upright_reward, x_penalty, non_alignement_penalty, stability_penalty).
The current_step argument is accepted and unused, as in the source. -/
noncomputable def calculate_reward (state : List ℝ) (terminated : Bool)
    (current_step : ℕ) : Option (ℝ × ℝ × ℝ × ℝ × ℝ) :=
  match slice3 state 0, slice3 state 3, slice3 state 6, slice3 state 9 with
  | some (x, _x_dot, _x_ddot), some (th1, th1_dot, th1_ddot),
      some (th2, th2_dot, th2_ddot), some (th3, th3_dot, th3_ddot) =>
    let p1_x := x + length * Real.sin th1
    let p1_y := -length * Real.cos th1
    let p2_x := p1_x + length * Real.sin th2
    let p2_y := p1_y + length * Real.cos th2
    let p3_x := p2_x + length * Real.sin th3
    let p3_y := p2_y + length * Real.cos th3
    let x_penalty := cart_position_weight * |x|
    let non_alignement_penalty :=
      alignement_weight * (|th1 - th2| + |th2 - th3| + |th3 - th1|) / Real.pi
    let upright_reward := upright_weight * (-p1_y - p2_y - p3_y)
    let angular_velocity_penalty := (th1_dot ^ 2 + th2_dot ^ 2 + th3_dot ^ 2) / 3.0
    let angular_accel_penalty := (th1_ddot ^ 2 + th2_ddot ^ 2 + th3_ddot ^ 2) / 3.0
    let stability_penalty :=
      stability_weight * (angular_velocity_penalty + angular_accel_penalty)
    let reward := upright_reward - x_penalty - non_alignement_penalty - stability_penalty
    let reward := if terminated then reward - termination_penalty else reward
    some (reward, upright_reward, x_penalty, non_alignement_penalty, stability_penalty)
  | _, _, _, _ => none

/-- The mutable state of a RewardManager instance: the old_state field,
written (never read) by calculate_reward. -/
structure MgrState where
  old_state : Option (List ℝ)

/-- The method calculate_reward with the instance state passed explicitly:
the old_state field is overwritten with the current state (reward.py
line 40) once extraction has succeeded; on an extraction failure the
ValueError propagates before line 40 is reached, leaving the instance
unchanged. -/
noncomputable def calculate_reward_st (m : MgrState) (state : List ℝ)
    (terminated : Bool) (current_step : ℕ) :
    Option (ℝ × ℝ × ℝ × ℝ × ℝ) × MgrState :=
  match calculate_reward state terminated current_step with
  | some r => (some r, ⟨some state⟩)
  | none => (none, m)

/-- The dictionary returned by get_reward_components, reward.py lines 70-76:
five named scalar fields. -/
structure Components where
  x_penalty : ℝ
  non_alignement_penalty : ℝ
  upright_reward : ℝ
  stability_penalty : ℝ
  reward : ℝ

/-- RewardManager.get_reward_components, reward.py lines 68-76: calls
calculate_reward with terminated = False and repacks the tuple as a record. -/
noncomputable def get_reward_components (state : List ℝ) (current_step : ℕ) :
    Option Components :=
  match calculate_reward state false current_step with
  | some (reward, upright_reward, x_penalty, non_alignement_penalty, stability_penalty) =>
    some ⟨x_penalty, non_alignement_penalty, upright_reward, stability_penalty, reward⟩
  | none => none

/-- The forward kinematics as the spec states it (section 4.4): the tip of
link i is the tip of link i-1 plus L(sin th_i, -cos th_i); stated for the
y coordinates of the three link tips, to be compared with the p1_y, p2_y,
p3_y actually computed by calculate_reward (which adds +L cos for links 2
and 3). -/
noncomputable def spec_tip_y (th1 th2 th3 : ℝ) : ℝ × ℝ × ℝ :=
  let y1 := -length * Real.cos th1
  let y2 := y1 - length * Real.cos th2
  let y3 := y2 - length * Real.cos th3
  (y1, y2, y3)

/-- The uprightness reward that the spec formula yields: w_up times the sum
of heights -y_i over the three spec link tips. -/
noncomputable def spec_upright_reward (th1 th2 th3 : ℝ) : ℝ :=
  upright_weight *
    (-(spec_tip_y th1 th2 th3).1 - (spec_tip_y th1 th2 th3).2.1 -
      (spec_tip_y th1 th2 th3).2.2)

end RewardManager

/-! ## TriplePendulumEnv (src/tp_env.py) -/

namespace TriplePendulumEnv

/-- Simulation time step, tp_env.py line 22. -/
noncomputable def dt : ℝ := 0.01

/-- Window width of animate_pendulum, tp_env.py line 133. -/
noncomputable def window_width : ℝ := 4.0

/-- Cart width of animate_pendulum, tp_env.py line 132. -/
noncomputable def cart_width : ℝ := 0.4

noncomputable def xmin : ℝ := -window_width / 2

noncomputable def xmax : ℝ := window_width / 2

/-- An environment instance: the configuration field num_nodes (self.n), the
mutable fields current_state and current_time, and the compiled dynamics
evaluator.  The evaluator (the rhs method: solving M xdd = F, where M and F
were built once by Kane's method and lambdify) is kept abstract as a
function from state and applied force to the state derivative. -/
structure Env where
  n : ℕ
  current_state : Option (List ℝ)
  current_time : ℝ
  rhs : List ℝ → ℝ → List ℝ

/-- TriplePendulumEnv.reset, tp_env.py lines 111-119: the state is
hstack(0.0, (-pi/2) * ones(len(q) - 1), 1e-3 * ones(len(u))), with
len(q) = len(u) = n + 1 — cart position, then n link angles, then the
n + 1 generalized velocities; it is stored, the clock is zeroed, and the
state is returned. -/
noncomputable def reset (e : Env) : List ℝ × Env :=
  let position_initial : ℝ := 0.0
  let angles_init : ℝ := -Real.pi / 2
  let speeds_init : ℝ := 1e-3
  let state := position_initial ::
    (List.replicate e.n angles_init ++ List.replicate (e.n + 1) speeds_init)
  (state, { e with current_state := some state, current_time := 0.0 })

/-- The explicit Euler update of the inner step function of
animate_pendulum, tp_env.py line 197:
next_state = current_state + rhs(current_state, ...) * dt, elementwise,
for an arbitrary state derivative deriv. -/
noncomputable def eulerUpdate (deriv : List ℝ → List ℝ) (s : List ℝ) : List ℝ :=
  List.zipWith (fun a d => a + d * dt) s (deriv s)

/-- One frame advance of the inner step function of animate_pendulum,
tp_env.py lines 196-205: the Euler update followed by the boundary clamp —
if the cart (of width cart_width) would cross xmin or xmax, the cart
position (index 0) is set to the clamped value and the cart velocity
(index num_joints) is set to 0. -/
noncomputable def stepFrame (deriv : List ℝ → List ℝ) (num_joints : ℕ)
    (s : List ℝ) : List ℝ :=
  let next_state := eulerUpdate deriv s
  let cart_position := next_state.headI
  if cart_position - cart_width / 2 < xmin then
    (next_state.set 0 (xmin + cart_width / 2)).set num_joints 0
  else if cart_position + cart_width / 2 > xmax then
    (next_state.set 0 (xmax - cart_width / 2)).set num_joints 0
  else next_state

/-- Modelled from the spec: the method TriplePendulumEnv.step is absent from
tp_env.py although train.py line 118 calls
next_state, terminated = self.env.step(action).  Per spec sections 4.3, 4.4
and 6, step(control) advances the stored state by one dt of explicit Euler
integration of the compiled dynamics with boundary clamping, advances the
clock by dt, decides termination from the resulting state (cart position
outside the travel bounds), stores the resulting state, and returns the
pair (next_state, terminated). -/
noncomputable def step (e : Env) (control : ℝ) : (List ℝ × Bool) × Env :=
  let s := match e.current_state with
    | some st => st
    | none => (reset e).1
  let next := stepFrame (fun st => e.rhs st control) (e.n + 1) s
  let terminated : Bool := decide (next.headI < xmin ∨ xmax < next.headI)
  ((next, terminated),
    { e with current_state := some next, current_time := e.current_time + dt })

/-- A concrete environment instance with the num_nodes = 2 of config.py and
a placeholder dynamics evaluator. -/
noncomputable def env2 : Env :=
  { n := 2, current_state := none, current_time := 0, rhs := fun s _ => s }

end TriplePendulumEnv

/-! ## The non-finite-state check of the training loop (src/train.py) -/

/-- An IEEE-754 floating point value as numpy handles it: NaN, a signed
infinity (true = positive), or a finite value. -/
inductive PyFloat where
  | nan : PyFloat
  | inf : Bool → PyFloat
  | fin : ℝ → PyFloat

namespace PyFloat

/-- IEEE addition on the NaN/infinity structure: NaN absorbs, opposite
infinities give NaN, an infinity absorbs finite values, finite values add. -/
noncomputable def add : PyFloat → PyFloat → PyFloat
  | nan, _ => nan
  | _, nan => nan
  | inf s, inf t => if s = t then inf s else nan
  | inf s, fin _ => inf s
  | fin _, inf t => inf t
  | fin a, fin b => fin (a + b)

def isnan : PyFloat → Bool
  | nan => true
  | _ => false

def isFinite : PyFloat → Bool
  | fin _ => true
  | _ => false

end PyFloat

/-- np.sum over the state vector, train.py line 121: a left fold of IEEE
addition starting from 0. -/
noncomputable def npSum (l : List PyFloat) : PyFloat :=
  l.foldl PyFloat.add (PyFloat.fin 0)

/-- The non-finite check of TriplePendulumTrainer.collect_trajectory,
train.py lines 120-123: if np.isnan(np.sum(next_state)) the rollout raises
ValueError, modelled as Except.error; otherwise the state passes through. -/
noncomputable def checkState (next_state : List PyFloat) :
    Except String (List PyFloat) :=
  if (npSum next_state).isnan then
    Except.error "Warning: NaN detected in state"
  else Except.ok next_state

/-! ## Helper lemmas -/

theorem slice3_eq_none (s : List ℝ) (a : ℕ) (h : s.length < a + 3) :
    RewardManager.slice3 s a = none := by
  have hlen : (s.drop a).length < 3 := by
    simp only [List.length_drop]
    omega
  unfold RewardManager.slice3
  rcases hd : s.drop a with _ | ⟨x, _ | ⟨y, _ | ⟨z, r⟩⟩⟩
  · rfl
  · rfl
  · rfl
  · rw [hd] at hlen
    simp at hlen
    omega

theorem slice3_eq_some (s : List ℝ) (a : ℕ) (h : a + 3 ≤ s.length) :
    ∃ x y z, RewardManager.slice3 s a = some (x, y, z) := by
  have hlen : 3 ≤ (s.drop a).length := by
    simp only [List.length_drop]
    omega
  unfold RewardManager.slice3
  rcases hd : s.drop a with _ | ⟨x, _ | ⟨y, _ | ⟨z, r⟩⟩⟩
  · rw [hd] at hlen; simp at hlen
  · rw [hd] at hlen; simp at hlen
  · rw [hd] at hlen; simp at hlen
  · exact ⟨x, y, z, rfl⟩

theorem calculate_reward_eq_none (s : List ℝ) (t : Bool) (k : ℕ)
    (h : s.length < 12) : RewardManager.calculate_reward s t k = none := by
  have h9 : RewardManager.slice3 s 9 = none := slice3_eq_none s 9 (by omega)
  unfold RewardManager.calculate_reward
  rw [h9]
  rcases RewardManager.slice3 s 0 with _ | ⟨x, xd, xdd⟩ <;>
    rcases RewardManager.slice3 s 3 with _ | ⟨a1, a2, a3⟩ <;>
      rcases RewardManager.slice3 s 6 with _ | ⟨b1, b2, b3⟩ <;>
        rfl

theorem calculate_reward_eq_some (s : List ℝ) (t : Bool) (k : ℕ)
    (h : 12 ≤ s.length) :
    ∃ r, RewardManager.calculate_reward s t k = some r := by
  obtain ⟨x, xd, xdd, h0⟩ := slice3_eq_some s 0 (by omega)
  obtain ⟨a1, a2, a3, h3⟩ := slice3_eq_some s 3 (by omega)
  obtain ⟨b1, b2, b3, h6⟩ := slice3_eq_some s 6 (by omega)
  obtain ⟨c1, c2, c3, h9⟩ := slice3_eq_some s 9 (by omega)
  unfold RewardManager.calculate_reward
  rw [h0, h3, h6, h9]
  exact ⟨_, rfl⟩

theorem reset_length (e : TriplePendulumEnv.Env) :
    (TriplePendulumEnv.reset e).1.length = 2 * e.n + 2 := by
  simp [TriplePendulumEnv.reset]
  omega

theorem calculate_reward_total (s : List ℝ) (k : ℕ) (r u xp na st : ℝ)
    (h : RewardManager.calculate_reward s false k = some (r, u, xp, na, st)) :
    r = u - xp - na - st := by
  unfold RewardManager.calculate_reward at h
  rcases hs0 : RewardManager.slice3 s 0 with _ | ⟨x, xd, xdd⟩ <;>
    rcases hs3 : RewardManager.slice3 s 3 with _ | ⟨a1, a2, a3⟩ <;>
      rcases hs6 : RewardManager.slice3 s 6 with _ | ⟨b1, b2, b3⟩ <;>
        rcases hs9 : RewardManager.slice3 s 9 with _ | ⟨c1, c2, c3⟩ <;>
          rw [hs0, hs3, hs6, hs9] at h <;>
            try exact Option.noConfusion h
  injection h with h
  rw [Prod.mk.injEq, Prod.mk.injEq, Prod.mk.injEq, Prod.mk.injEq] at h
  obtain ⟨h1, h2, h3, h4, h5⟩ := h
  subst h2 h3 h4 h5
  try rw [if_neg Bool.false_ne_true] at h1
  exact h1.symm

theorem pyfloat_add_nan_left (x : PyFloat) :
    PyFloat.add PyFloat.nan x = PyFloat.nan := by
  cases x <;> rfl

theorem pyfloat_add_nan_right (x : PyFloat) :
    PyFloat.add x PyFloat.nan = PyFloat.nan := by
  cases x <;> rfl

theorem pyfloat_foldl_nan (l : List PyFloat) :
    l.foldl PyFloat.add PyFloat.nan = PyFloat.nan := by
  induction l with
  | nil => rfl
  | cons a l ih =>
    rw [List.foldl_cons, pyfloat_add_nan_left]
    exact ih

theorem pyfloat_foldl_nan_mem (l : List PyFloat) (acc : PyFloat)
    (h : PyFloat.nan ∈ l) : l.foldl PyFloat.add acc = PyFloat.nan := by
  induction l generalizing acc with
  | nil => simp at h
  | cons a l ih =>
    rw [List.foldl_cons]
    rcases List.mem_cons.mp h with h1 | h1
    · subst h1
      rw [pyfloat_add_nan_right]
      exact pyfloat_foldl_nan l
    · exact ih _ h1

theorem pyfloat_add_finite (x y : PyFloat) (hx : x.isFinite = true)
    (hy : y.isFinite = true) : (PyFloat.add x y).isFinite = true := by
  cases x <;> cases y <;> simp_all [PyFloat.isFinite, PyFloat.add]

theorem pyfloat_foldl_finite (l : List PyFloat) (acc : PyFloat)
    (hacc : acc.isFinite = true) (h : ∀ x ∈ l, PyFloat.isFinite x = true) :
    (l.foldl PyFloat.add acc).isFinite = true := by
  induction l generalizing acc with
  | nil => simpa using hacc
  | cons a l ih =>
    rw [List.foldl_cons]
    exact ih (PyFloat.add acc a)
      (pyfloat_add_finite acc a hacc (h a (by simp)))
      (fun x hx => h x (by simp [hx]))

theorem pyfloat_isnan_of_finite (x : PyFloat) (h : x.isFinite = true) :
    x.isnan = false := by
  cases x <;> simp_all [PyFloat.isFinite, PyFloat.isnan]

/-! ## Claims -/

/-- C3: calculate_reward unpacks exactly the state components at indices 0
through 11 (it fails, ValueError modelled as none, on every state of length
below 12 and succeeds on every state of length at least 12); the state
returned by reset() has length 2n+2, so for n at most 4 calculate_reward
fails on it rather than returning a reward. -/
theorem reward_requires_twelve_components :
    (∀ (s : List ℝ) (t : Bool) (k : ℕ), s.length < 12 →
      RewardManager.calculate_reward s t k = none)
    ∧ (∀ (s : List ℝ) (t : Bool) (k : ℕ), 12 ≤ s.length →
      ∃ r, RewardManager.calculate_reward s t k = some r)
    ∧ (∀ e : TriplePendulumEnv.Env,
      (TriplePendulumEnv.reset e).1.length = 2 * e.n + 2)
    ∧ (∀ (e : TriplePendulumEnv.Env) (t : Bool) (k : ℕ), e.n ≤ 4 →
      RewardManager.calculate_reward (TriplePendulumEnv.reset e).1 t k = none) := by
  refine ⟨calculate_reward_eq_none, calculate_reward_eq_some, reset_length,
    fun e t k h => ?_⟩
  have hl := reset_length e
  exact calculate_reward_eq_none _ t k (by omega)

theorem reward_requires_twelve_components_witness :
    RewardManager.calculate_reward [] false 0 = none
    ∧ RewardManager.calculate_reward
        (TriplePendulumEnv.reset TriplePendulumEnv.env2).1 false 0 = none :=
  ⟨reward_requires_twelve_components.1 [] false 0 (by simp),
   reward_requires_twelve_components.2.2.2 TriplePendulumEnv.env2 false 0
     (by norm_num [TriplePendulumEnv.env2])⟩

/-- C4: reset() returns a state whose cart position is exactly 0, whose n
link angles are exactly -pi/2, and whose n+1 velocity components are
exactly the nonzero perturbation 1e-3; it zeroes the simulation clock, and
a second reset yields the identical state (determinism). -/
theorem reset_initial_state (e : TriplePendulumEnv.Env) :
    (TriplePendulumEnv.reset e).1.headI = 0
    ∧ (∀ i : ℕ, i < e.n →
        ((TriplePendulumEnv.reset e).1)[i + 1]? = some (-Real.pi / 2))
    ∧ (∀ i : ℕ, i < e.n + 1 →
        ((TriplePendulumEnv.reset e).1)[e.n + 1 + i]? = some 1e-3)
    ∧ (1e-3 : ℝ) ≠ 0
    ∧ ((TriplePendulumEnv.reset e).2).current_time = 0
    ∧ (TriplePendulumEnv.reset ((TriplePendulumEnv.reset e).2)).1 =
        (TriplePendulumEnv.reset e).1 := by
  refine ⟨by norm_num [TriplePendulumEnv.reset], ?_, ?_, by norm_num,
    by norm_num [TriplePendulumEnv.reset], rfl⟩
  · intro i hi
    simp only [TriplePendulumEnv.reset, List.getElem?_cons_succ]
    rw [List.getElem?_append_left (by simp only [List.length_replicate]; exact hi),
      List.getElem?_replicate_of_lt hi]
  · intro i hi
    simp only [TriplePendulumEnv.reset]
    have hidx : e.n + 1 + i = (e.n + i) + 1 := by omega
    rw [hidx, List.getElem?_cons_succ,
      List.getElem?_append_right (by simp only [List.length_replicate]; omega)]
    simp only [List.length_replicate]
    rw [List.getElem?_replicate_of_lt (by omega)]

theorem reset_initial_state_witness :
    ((TriplePendulumEnv.reset TriplePendulumEnv.env2).1)[1]? =
        some (-Real.pi / 2)
    ∧ ((TriplePendulumEnv.reset TriplePendulumEnv.env2).1)[3]? =
        some (1e-3 : ℝ) :=
  ⟨(reset_initial_state TriplePendulumEnv.env2).2.1 0
      (by norm_num [TriplePendulumEnv.env2]),
   (reset_initial_state TriplePendulumEnv.env2).2.2.1 0
      (by norm_num [TriplePendulumEnv.env2])⟩

/-- C5: for every state and step count, the reward with terminated = true is
exactly termination_penalty below the reward with terminated = false, with
the other four returned components unchanged (and both calls fail on the
same inputs). -/
theorem termination_penalty_exact (s : List ℝ) (k : ℕ) :
    RewardManager.calculate_reward s true k =
      (RewardManager.calculate_reward s false k).map
        (fun r =>
          (r.1 - RewardManager.termination_penalty, r.2.1, r.2.2.1, r.2.2.2.1,
            r.2.2.2.2)) := by
  unfold RewardManager.calculate_reward
  rcases RewardManager.slice3 s 0 with _ | ⟨x, xd, xdd⟩ <;>
    rcases RewardManager.slice3 s 3 with _ | ⟨a1, a2, a3⟩ <;>
      rcases RewardManager.slice3 s 6 with _ | ⟨b1, b2, b3⟩ <;>
        rcases RewardManager.slice3 s 9 with _ | ⟨c1, c2, c3⟩ <;>
          simp

/-- C6: the misalignment penalty component equals alignement_weight times
the cyclic sum of absolute adjacent-angle differences divided by pi, and is
exactly 0 whenever the three link angles are equal, whatever the common
value. -/
theorem misalignment_penalty_formula
    (x xd xdd t1 t1d t1dd t2 t2d t2dd t3 t3d t3dd : ℝ) (term : Bool) (k : ℕ) :
    (RewardManager.calculate_reward
        [x, xd, xdd, t1, t1d, t1dd, t2, t2d, t2dd, t3, t3d, t3dd] term k).map
        (fun r => r.2.2.2.1)
      = some (RewardManager.alignement_weight *
          (|t1 - t2| + |t2 - t3| + |t3 - t1|) / Real.pi)
    ∧ (t1 = t2 → t2 = t3 →
      (RewardManager.calculate_reward
          [x, xd, xdd, t1, t1d, t1dd, t2, t2d, t2dd, t3, t3d, t3dd] term k).map
          (fun r => r.2.2.2.1) = some 0) := by
  constructor
  · simp [RewardManager.calculate_reward, RewardManager.slice3]
  · intro h1 h2
    subst h1 h2
    simp [RewardManager.calculate_reward, RewardManager.slice3]

theorem misalignment_penalty_formula_witness :
    (RewardManager.calculate_reward
        [0, 0, 0, 1, 0, 0, 1, 0, 0, 1, 0, 0] false 0).map
        (fun r => r.2.2.2.1) = some 0 :=
  (misalignment_penalty_formula 0 0 0 1 0 0 1 0 0 1 0 0 false 0).2 rfl rfl

/-- C2: at the all-zero state, the uprightness reward computed by
calculate_reward is 0, whereas the spec forward kinematics (tip i equals
tip i-1 plus L(sin th, -cos th), height being minus the y coordinate)
yields 3: the code adds plus L cos th rather than minus L cos th for the y
coordinates of links 2 and 3. -/
theorem upright_reward_breaks_spec_kinematics :
    (RewardManager.calculate_reward
        [0, 0, 0, 0, 0, 0, 0, 0, 0, 0, 0, 0] false 0).map (fun r => r.2.1)
      = some 0
    ∧ RewardManager.spec_upright_reward 0 0 0 = 3
    ∧ (0 : ℝ) ≠ 3 := by
  refine ⟨?_, ?_, by norm_num⟩
  · simp [RewardManager.calculate_reward, RewardManager.slice3]
    try norm_num [RewardManager.length, RewardManager.upright_weight]
  · simp [RewardManager.spec_upright_reward, RewardManager.spec_tip_y]
    try norm_num [RewardManager.length, RewardManager.upright_weight]

/-- C7: when the Euler update of a frame would put the cart beyond a travel
bound, the frame step yields a state whose cart position (index 0) equals
the clamped travel limit and whose cart velocity entry (index num_joints)
equals 0, symmetrically at both bounds; the clamp is a total function, it
raises no error. -/
theorem animate_step_clamps (deriv : List ℝ → List ℝ) (num_joints : ℕ)
    (s : List ℝ) (hlen : (deriv s).length = s.length)
    (hj : num_joints < s.length) (hj0 : num_joints ≠ 0) :
    ((TriplePendulumEnv.eulerUpdate deriv s).headI -
          TriplePendulumEnv.cart_width / 2 < TriplePendulumEnv.xmin →
      (TriplePendulumEnv.stepFrame deriv num_joints s)[0]? =
          some (TriplePendulumEnv.xmin + TriplePendulumEnv.cart_width / 2)
        ∧ (TriplePendulumEnv.stepFrame deriv num_joints s)[num_joints]? =
          some 0)
    ∧ (¬((TriplePendulumEnv.eulerUpdate deriv s).headI -
          TriplePendulumEnv.cart_width / 2 < TriplePendulumEnv.xmin) →
      (TriplePendulumEnv.eulerUpdate deriv s).headI +
          TriplePendulumEnv.cart_width / 2 > TriplePendulumEnv.xmax →
      (TriplePendulumEnv.stepFrame deriv num_joints s)[0]? =
          some (TriplePendulumEnv.xmax - TriplePendulumEnv.cart_width / 2)
        ∧ (TriplePendulumEnv.stepFrame deriv num_joints s)[num_joints]? =
          some 0) := by
  have hel : (TriplePendulumEnv.eulerUpdate deriv s).length = s.length := by
    simp [TriplePendulumEnv.eulerUpdate, hlen]
  constructor
  · intro h1
    rw [TriplePendulumEnv.stepFrame, if_pos h1]
    constructor
    · rw [List.getElem?_set_ne hj0, List.getElem?_set_self (by omega)]
    · rw [List.getElem?_set_self (by simp only [List.length_set]; omega)]
  · intro h1 h2
    rw [TriplePendulumEnv.stepFrame, if_neg h1, if_pos h2]
    constructor
    · rw [List.getElem?_set_ne hj0, List.getElem?_set_self (by omega)]
    · rw [List.getElem?_set_self (by simp only [List.length_set]; omega)]

theorem animate_step_clamps_witness :
    (TriplePendulumEnv.stepFrame (fun _ => [0, 0, 0, 0, 0, 0, 0, 0]) 4
        [3, 0, 0, 0, 0, 0, 0, 0])[0]? =
      some (TriplePendulumEnv.xmax - TriplePendulumEnv.cart_width / 2)
    ∧ (TriplePendulumEnv.stepFrame (fun _ => [0, 0, 0, 0, 0, 0, 0, 0]) 4
        [3, 0, 0, 0, 0, 0, 0, 0])[4]? = some 0 :=
  (animate_step_clamps (fun _ => [0, 0, 0, 0, 0, 0, 0, 0]) 4
      [3, 0, 0, 0, 0, 0, 0, 0] (by simp) (by simp) (by norm_num)).2
    (by norm_num [TriplePendulumEnv.eulerUpdate, TriplePendulumEnv.dt,
      TriplePendulumEnv.cart_width, TriplePendulumEnv.xmin,
      TriplePendulumEnv.window_width])
    (by norm_num [TriplePendulumEnv.eulerUpdate, TriplePendulumEnv.dt,
      TriplePendulumEnv.cart_width, TriplePendulumEnv.xmax,
      TriplePendulumEnv.window_width])

/-- C8: the value returned by calculate_reward is a function of the state
and the terminated flag alone: the stored old_state (hence any history of
earlier calls) and the current_step argument have no effect on it. -/
theorem calculate_reward_state_independent (m1 m2 : RewardManager.MgrState)
    (s : List ℝ) (t : Bool) (k1 k2 : ℕ) :
    (RewardManager.calculate_reward_st m1 s t k1).1 =
      (RewardManager.calculate_reward_st m2 s t k2).1 := by
  unfold RewardManager.calculate_reward_st
  have h : RewardManager.calculate_reward s t k1 =
      RewardManager.calculate_reward s t k2 := rfl
  rw [h]
  rcases RewardManager.calculate_reward s t k2 with _ | r <;> rfl

/-- C9: whenever get_reward_components returns a record (of its five named
scalar fields), the reward field equals upright_reward minus x_penalty
minus non_alignement_penalty minus stability_penalty — the terminated=false
branch, with no termination penalty. -/
theorem reward_components_record (s : List ℝ) (k : ℕ)
    (c : RewardManager.Components)
    (h : RewardManager.get_reward_components s k = some c) :
    c.reward = c.upright_reward - c.x_penalty - c.non_alignement_penalty -
      c.stability_penalty := by
  unfold RewardManager.get_reward_components at h
  rcases hc : RewardManager.calculate_reward s false k with _ | ⟨r, u, xp, na, st⟩
  · rw [hc] at h
    exact Option.noConfusion h
  · rw [hc] at h
    injection h with h
    subst h
    exact calculate_reward_total s k r u xp na st hc

theorem reward_components_record_witness :
    (0 : ℝ) = 0 - 0 - 0 - 0 :=
  reward_components_record [0, 0, 0, 0, 0, 0, 0, 0, 0, 0, 0, 0] 0
    ⟨0, 0, 0, 0, 0⟩
    (by simp [RewardManager.get_reward_components,
      RewardManager.calculate_reward, RewardManager.slice3,
      RewardManager.cart_position_weight, RewardManager.alignement_weight,
      RewardManager.upright_weight, RewardManager.stability_weight,
      RewardManager.length])

/-- C1: the environment step operation takes a scalar control and returns
the pair (next state vector, boolean terminated flag), advancing the held
simulation state and clock by one time step.  Modelled from the spec, since
the step method called by the training loop is absent from tp_env.py. -/
theorem env_step_contract (e : TriplePendulumEnv.Env) (control : ℝ) :
    (∃ (ns : List ℝ) (b : Bool),
      TriplePendulumEnv.step e control =
        ((ns, b), (TriplePendulumEnv.step e control).2))
    ∧ ((TriplePendulumEnv.step e control).2).current_time =
        e.current_time + TriplePendulumEnv.dt
    ∧ ((TriplePendulumEnv.step e control).2).current_state =
        some ((TriplePendulumEnv.step e control).1).1 :=
  ⟨⟨_, _, rfl⟩, rfl, rfl⟩

/-- C10 counterexample: a state containing a positive infinity and no NaN
is non-finite, yet np.isnan(np.sum(state)) is false and the check of
collect_trajectory raises nothing, so the claim that any Inf in the state
surfaces an error is false. -/
theorem nan_check_misses_inf :
    PyFloat.isFinite (PyFloat.inf true) = false
    ∧ checkState [PyFloat.inf true, PyFloat.fin 0] =
        Except.ok [PyFloat.inf true, PyFloat.fin 0] := by
  exact ⟨rfl, rfl⟩

/-- C10 (amended): the check raises exactly when the IEEE sum of the state
is NaN: a state containing a NaN always raises, an entirely finite state
never raises, but a state whose only non-finite entries are infinities of
one sign passes through silently. -/
theorem nan_check_amended :
    (∀ ns : List PyFloat, PyFloat.nan ∈ ns →
      checkState ns = Except.error "Warning: NaN detected in state")
    ∧ (∀ ns : List PyFloat, (∀ x ∈ ns, PyFloat.isFinite x = true) →
      checkState ns = Except.ok ns) := by
  constructor
  · intro ns h
    unfold checkState npSum
    rw [pyfloat_foldl_nan_mem ns _ h]
    rfl
  · intro ns h
    unfold checkState
    have hfin : (npSum ns).isnan = false :=
      pyfloat_isnan_of_finite _ (pyfloat_foldl_finite ns _ rfl h)
    rw [hfin]
    rfl

theorem nan_check_amended_witness :
    checkState [PyFloat.nan] = Except.error "Warning: NaN detected in state"
    ∧ checkState [PyFloat.fin 1] = Except.ok [PyFloat.fin 1] :=
  ⟨nan_check_amended.1 [PyFloat.nan] (by simp),
   nan_check_amended.2 [PyFloat.fin 1]
     (by intro x hx; rw [List.mem_singleton] at hx; subst hx; rfl)⟩

end TriplePendulum
